import Mathlib

/-!
# Verification of the business-case platform's financial modeling engine

A shallow embedding, over exact rationals, of the financial modeling engine
and audit/scoring logic of the business-case authoring application
(`backend/app/static/js/app.js`, `frontend/src/components/DataDeck.tsx`,
`frontend/src/store/businessCaseStore.ts`), together with theorems settling
the specification's claims about it.

JavaScript numbers are modelled as `ℚ`; `Math.abs` is modelled by `jsAbs`;
`Math.max(0, x)` by `max 0 x`.  Loops with early return become structural
recursions over the list being traversed; the bounded Newton-Raphson loop
of `calculateIRR` becomes a fuel recursion with the source's iteration cap
as fuel.
-/

namespace BusinessCasePlatform

/-- JavaScript `Math.abs` on the rational model of JS numbers. -/
def jsAbs (q : ℚ) : ℚ := if q < 0 then -q else q

theorem jsAbs_eq_abs (q : ℚ) : jsAbs q = |q| := by
  unfold jsAbs
  rcases lt_or_le q 0 with h | h
  · rw [if_pos h, abs_of_neg h]
  · rw [if_neg (not_lt.mpr h), abs_of_nonneg h]

/-- One year of the five-year financial projection
(`FinancialData` in `frontend/src/types/index.ts`). -/
structure FinancialData where
  year : Int
  revenue : ℚ
  costs : ℚ
  gross_profit : ℚ
  operating_expenses : ℚ
  ebitda : ℚ
  depreciation : ℚ
  ebit : ℚ
  interest : ℚ
  taxes : ℚ
  net_income : ℚ
deriving DecidableEq

instance : Inhabited FinancialData :=
  ⟨{ year := 0
     revenue := 0
     costs := 0
     gross_profit := 0
     operating_expenses := 0
     ebitda := 0
     depreciation := 0
     ebit := 0
     interest := 0
     taxes := 0
     net_income := 0 }⟩

/-- A sample input row used by concrete witnesses below. -/
def sampleRow : FinancialData :=
  { year := 2024
    revenue := 1000
    costs := 600
    gross_profit := 0
    operating_expenses := 200
    ebitda := 0
    depreciation := 50
    ebit := 0
    interest := 20
    taxes := 0
    net_income := 0 }

/-- `calculateDerivedFields` (`app.js` lines 227-245; identical copies in
`DataDeck.tsx` and the unnamed earlier variant of `app.js`): recompute the
derived columns of every row from the editable ones. -/
def calculateDerivedFields (data : List FinancialData) : List FinancialData :=
  data.map (fun row =>
    let gross_profit := row.revenue - row.costs
    let ebitda := gross_profit - row.operating_expenses
    let ebit := ebitda - row.depreciation
    let pretax_income := ebit - row.interest
    let taxes := pretax_income * 0.25
    let net_income := pretax_income - taxes
    { row with
      gross_profit := gross_profit
      ebitda := ebitda
      ebit := ebit
      taxes := taxes
      net_income := net_income })

theorem getD_map_of_lt {α β : Type} [Inhabited α] [Inhabited β]
    (f : α → β) (l : List α) (i : Nat) (h : i < l.length) :
    (l.map f).getD i default = f (l.getD i default) := by
  induction l generalizing i with
  | nil => simp at h
  | cons a t ih =>
    cases i with
    | zero => rfl
    | succ j =>
      simp only [List.map_cons, List.getD_cons_succ]
      exact ih j (by simpa using h)

/-- Claim C1: `calculateDerivedFields` preserves the length of the list and,
row by row, keeps `year`, `revenue`, `costs`, `operating_expenses`,
`depreciation` and `interest` unchanged while setting
`gross_profit = revenue - costs`,
`ebitda = gross_profit - operating_expenses`, `ebit = ebitda - depreciation`,
`taxes = 0.25 * (ebit - interest)` and
`net_income = (ebit - interest) - taxes = 0.75 * (ebit - interest)`. -/
theorem calculateDerivedFields_spec (data : List FinancialData) :
    (calculateDerivedFields data).length = data.length ∧
    ∀ i, i < data.length →
      (calculateDerivedFields data).getD i default =
        { (data.getD i default) with
          gross_profit := (data.getD i default).revenue - (data.getD i default).costs
          ebitda := ((data.getD i default).revenue - (data.getD i default).costs) -
            (data.getD i default).operating_expenses
          ebit := (((data.getD i default).revenue - (data.getD i default).costs) -
            (data.getD i default).operating_expenses) - (data.getD i default).depreciation
          taxes := 0.25 * (((((data.getD i default).revenue - (data.getD i default).costs) -
            (data.getD i default).operating_expenses) - (data.getD i default).depreciation) -
            (data.getD i default).interest)
          net_income := 0.75 * (((((data.getD i default).revenue - (data.getD i default).costs) -
            (data.getD i default).operating_expenses) - (data.getD i default).depreciation) -
            (data.getD i default).interest) } := by
  constructor
  · simp [calculateDerivedFields]
  · intro i hi
    rw [calculateDerivedFields, getD_map_of_lt _ _ _ hi]
    set row := data.getD i default
    show ({ row with
      gross_profit := row.revenue - row.costs
      ebitda := (row.revenue - row.costs) - row.operating_expenses
      ebit := ((row.revenue - row.costs) - row.operating_expenses) - row.depreciation
      taxes := (((row.revenue - row.costs) - row.operating_expenses) - row.depreciation -
        row.interest) * 0.25
      net_income := (((row.revenue - row.costs) - row.operating_expenses) - row.depreciation -
        row.interest) - (((row.revenue - row.costs) - row.operating_expenses) -
        row.depreciation - row.interest) * 0.25 } : FinancialData) = _
    congr 1 <;> ring

/-- Witness for claim C1 at a concrete one-row projection. -/
theorem calculateDerivedFields_spec_witness :
    (calculateDerivedFields [sampleRow]).getD 0 default =
      { ([sampleRow].getD 0 default) with
        gross_profit := ([sampleRow].getD 0 default).revenue - ([sampleRow].getD 0 default).costs
        ebitda := (([sampleRow].getD 0 default).revenue - ([sampleRow].getD 0 default).costs) -
          ([sampleRow].getD 0 default).operating_expenses
        ebit := ((([sampleRow].getD 0 default).revenue - ([sampleRow].getD 0 default).costs) -
          ([sampleRow].getD 0 default).operating_expenses) -
          ([sampleRow].getD 0 default).depreciation
        taxes := 0.25 * (((([sampleRow].getD 0 default).revenue -
          ([sampleRow].getD 0 default).costs) -
          ([sampleRow].getD 0 default).operating_expenses) -
          ([sampleRow].getD 0 default).depreciation - ([sampleRow].getD 0 default).interest)
        net_income := 0.75 * (((([sampleRow].getD 0 default).revenue -
          ([sampleRow].getD 0 default).costs) -
          ([sampleRow].getD 0 default).operating_expenses) -
          ([sampleRow].getD 0 default).depreciation - ([sampleRow].getD 0 default).interest) } :=
  (calculateDerivedFields_spec [sampleRow]).2 0 (by norm_num)

/-- The discounted-sum loop of `calculateNPV` (`app.js` lines 1223-1231):
starting at list position `i`, add `cashFlows[i] / (1 + discountRate)^(i+1)`
for every remaining cash flow. -/
def npvLoop (discountRate : ℚ) : List ℚ → Nat → ℚ
  | [], _ => 0
  | c :: cs, i => c / (1 + discountRate) ^ (i + 1) + npvLoop discountRate cs (i + 1)

/-- `calculateNPV` (`app.js` lines 1223-1231): `npv` starts at
`-initialInvestment` and the loop adds each discounted cash flow. -/
def calculateNPV (cashFlows : List ℚ) (discountRate initialInvestment : ℚ) : ℚ :=
  -initialInvestment + npvLoop discountRate cashFlows 0

theorem npvLoop_eq_sum (discountRate : ℚ) (cashFlows : List ℚ) (j : Nat) :
    npvLoop discountRate cashFlows j =
      ∑ i ∈ Finset.range cashFlows.length,
        cashFlows.getD i 0 / (1 + discountRate) ^ (i + j + 1) := by
  induction cashFlows generalizing j with
  | nil => simp [npvLoop]
  | cons c cs ih =>
    rw [npvLoop, ih (j + 1), List.length_cons, Finset.sum_range_succ']
    simp only [List.getD_cons_succ, List.getD_cons_zero, Nat.zero_add]
    rw [add_comm]
    congr 1
    apply Finset.sum_congr rfl
    intro i _
    congr 2
    omega

/-- Claim C3: `calculateNPV cf r I` equals
`-I + ∑_{i<n} cf[i] / (1+r)^(i+1)`: the initial investment is not
discounted, the first cash flow is discounted by one full period, and on an
empty cash-flow list the result is exactly `-I`. -/
theorem calculateNPV_spec (cashFlows : List ℚ) (discountRate initialInvestment : ℚ)
    (h : 1 + discountRate ≠ 0) :
    calculateNPV cashFlows discountRate initialInvestment =
      -initialInvestment + ∑ i ∈ Finset.range cashFlows.length,
        cashFlows.getD i 0 / (1 + discountRate) ^ (i + 1) ∧
    calculateNPV [] discountRate initialInvestment = -initialInvestment := by
  refine ⟨?_, by simp [calculateNPV, npvLoop]⟩
  rw [calculateNPV, npvLoop_eq_sum]

/-- Witness for claim C3 at a concrete two-element cash-flow list. -/
theorem calculateNPV_spec_witness :
    calculateNPV [110, 121] (1 / 10) 100 =
      -100 + ∑ i ∈ Finset.range (List.length [(110 : ℚ), 121]),
        [(110 : ℚ), 121].getD i 0 / (1 + 1 / 10) ^ (i + 1) ∧
    calculateNPV [] (1 / 10) 100 = -100 :=
  calculateNPV_spec [110, 121] (1 / 10) 100 (by norm_num)

/-- The derivative accumulation of the Newton-Raphson loop in `calculateIRR`
(`app.js` lines 1240-1246): starting at list position `i`, the loop
subtracts `(i+1) * cashFlows[i] / (1 + irr)^(i+2)` for every remaining cash
flow. -/
def derivLoop (irr : ℚ) : List ℚ → Nat → ℚ
  | [], _ => 0
  | c :: cs, i => -((i + 1 : ℚ) * c / (1 + irr) ^ (i + 2)) + derivLoop irr cs (i + 1)

/-- One Newton-Raphson update `newIrr = irr - npv / derivative` of
`calculateIRR` (`app.js` line 1255); the loop recomputes `npv` exactly as
`calculateNPV` does. -/
def newtonNext (cashFlows : List ℚ) (initialInvestment irr : ℚ) : ℚ :=
  irr - calculateNPV cashFlows irr initialInvestment / derivLoop irr cashFlows 0

/-- The clamp `if (irr < -0.99) irr = -0.99; if (irr > 10) irr = 10;`
applied between iterations of `calculateIRR` (`app.js` lines 1264-1265). -/
def boundIrr (irr : ℚ) : ℚ :=
  if irr < -0.99 then -0.99 else if 10 < irr then 10 else irr

/-- The bounded Newton-Raphson loop of `calculateIRR`
(`app.js` lines 1233-1267), with the remaining iteration count of the
`for` loop as fuel.  The `Bool` component records whether the loop exited
through the convergence test `|newIrr - irr| < tolerance` (`true`) rather
than through the derivative guard or the iteration cap (`false`). -/
def calculateIRRGo (cashFlows : List ℚ) (initialInvestment : ℚ) : Nat → ℚ → ℚ × Bool
  | 0, irr => (max 0 irr, false)
  | fuel + 1, irr =>
    if jsAbs (derivLoop irr cashFlows 0) < 1e-10 then (max 0 irr, false)
    else if jsAbs (newtonNext cashFlows initialInvestment irr - irr) < 0.0001 then
      (max 0 (newtonNext cashFlows initialInvestment irr), true)
    else
      calculateIRRGo cashFlows initialInvestment fuel
        (boundIrr (newtonNext cashFlows initialInvestment irr))

/-- `calculateIRR` with its exit mode: initial guess `0.1`, default
`maxIterations = 100`, and every exit wrapped in `Math.max(0, _)`. -/
def calculateIRRRun (cashFlows : List ℚ) (initialInvestment : ℚ) : ℚ × Bool :=
  calculateIRRGo cashFlows initialInvestment 100 0.1

/-- `calculateIRR` (`app.js` lines 1233-1267). -/
def calculateIRR (cashFlows : List ℚ) (initialInvestment : ℚ) : ℚ :=
  (calculateIRRRun cashFlows initialInvestment).1

theorem calculateIRRGo_succ_step (cashFlows : List ℚ) (initialInvestment : ℚ)
    (n : Nat) (irr : ℚ)
    (hd : ¬ jsAbs (derivLoop irr cashFlows 0) < 1e-10)
    (hc : ¬ jsAbs (newtonNext cashFlows initialInvestment irr - irr) < 0.0001) :
    calculateIRRGo cashFlows initialInvestment (n + 1) irr =
      calculateIRRGo cashFlows initialInvestment n
        (boundIrr (newtonNext cashFlows initialInvestment irr)) := by
  rw [calculateIRRGo, if_neg hd, if_neg hc]

theorem calculateIRRGo_succ_conv (cashFlows : List ℚ) (initialInvestment : ℚ)
    (n : Nat) (irr : ℚ)
    (hd : ¬ jsAbs (derivLoop irr cashFlows 0) < 1e-10)
    (hc : jsAbs (newtonNext cashFlows initialInvestment irr - irr) < 0.0001) :
    calculateIRRGo cashFlows initialInvestment (n + 1) irr =
      (max 0 (newtonNext cashFlows initialInvestment irr), true) := by
  rw [calculateIRRGo, if_neg hd, if_pos hc]

theorem calculateIRRGo_fst_nonneg (cashFlows : List ℚ) (initialInvestment : ℚ) :
    ∀ (fuel : Nat) (irr : ℚ),
      0 ≤ (calculateIRRGo cashFlows initialInvestment fuel irr).1 := by
  intro fuel
  induction fuel with
  | zero => intro irr; exact le_max_left 0 irr
  | succ n ih =>
    intro irr
    rw [calculateIRRGo]
    split_ifs
    · exact le_max_left 0 irr
    · exact le_max_left 0 _
    · exact ih _

/-- Claim C10: `calculateIRR` terminates (it is total by construction, the
`for` loop being bounded by `maxIterations = 100`) and always returns a
non-negative rate: every exit path is wrapped in `Math.max(0, _)`. -/
theorem calculateIRR_nonneg (cashFlows : List ℚ) (initialInvestment : ℚ) :
    0 ≤ calculateIRR cashFlows initialInvestment :=
  calculateIRRGo_fst_nonneg cashFlows initialInvestment 100 0.1

theorem calculateIRRGo_converged (cashFlows : List ℚ) (initialInvestment : ℚ) :
    ∀ (fuel : Nat) (irr : ℚ),
      (calculateIRRGo cashFlows initialInvestment fuel irr).2 = true →
      ∃ r : ℚ, ¬ jsAbs (derivLoop r cashFlows 0) < 1e-10 ∧
        jsAbs (newtonNext cashFlows initialInvestment r - r) < 0.0001 ∧
        (calculateIRRGo cashFlows initialInvestment fuel irr).1 =
          max 0 (newtonNext cashFlows initialInvestment r) := by
  intro fuel
  induction fuel with
  | zero => intro irr h; simp [calculateIRRGo] at h
  | succ n ih =>
    intro irr h
    rw [calculateIRRGo] at h ⊢
    split_ifs at h ⊢ with h1 h2
    · exact ⟨irr, h1, h2, rfl⟩
    · exact ih _ h

/-- Claim C2, amended: `calculateIRR` is Newton-Raphson with initial guess
`0.1`, at most `100` iterations, the derivative guard `|NPV'(r)| < 1e-10`
and clamping of `r` to `[-0.99, 10]` between iterations; whenever it stops
by convergence, the final two iterates differ by less than the tolerance
`0.0001` and the returned value is `max 0` of the final iterate — but the
NPV at the returned rate need not be zero to within the tolerance. -/
theorem calculateIRR_convergence (cashFlows : List ℚ) (initialInvestment : ℚ)
    (h : (calculateIRRRun cashFlows initialInvestment).2 = true) :
    ∃ r : ℚ, ¬ jsAbs (derivLoop r cashFlows 0) < 1e-10 ∧
      jsAbs (newtonNext cashFlows initialInvestment r - r) < 0.0001 ∧
      calculateIRR cashFlows initialInvestment =
        max 0 (newtonNext cashFlows initialInvestment r) :=
  calculateIRRGo_converged cashFlows initialInvestment 100 0.1 h

/-- Concrete evaluation of the whole Newton-Raphson run on the single cash
flow `210000000000` against the initial investment `200000000000`: the
iterates are `0.1`, `1/21`, `463/9261`, and the loop then stops by
convergence at `90054427/1801088541 ≈ 0.05`. -/
theorem calculateIRRRun_concrete :
    calculateIRRRun [(210000000000 : ℚ)] 200000000000 =
      (90054427 / 1801088541, true) := by
  have hb0 : boundIrr (newtonNext [(210000000000 : ℚ)] 200000000000 0.1) = 1 / 21 := by
    norm_num [boundIrr, newtonNext, calculateNPV, npvLoop, derivLoop]
  have hb1 : boundIrr (newtonNext [(210000000000 : ℚ)] 200000000000 (1 / 21)) =
      463 / 9261 := by
    norm_num [boundIrr, newtonNext, calculateNPV, npvLoop, derivLoop]
  rw [calculateIRRRun, show (100 : Nat) = 99 + 1 from rfl,
    calculateIRRGo_succ_step _ _ _ _
      (by norm_num [jsAbs, derivLoop])
      (by norm_num [jsAbs, newtonNext, calculateNPV, npvLoop, derivLoop]),
    hb0, show (99 : Nat) = 98 + 1 from rfl,
    calculateIRRGo_succ_step _ _ _ _
      (by norm_num [jsAbs, derivLoop])
      (by norm_num [jsAbs, newtonNext, calculateNPV, npvLoop, derivLoop]),
    hb1, show (98 : Nat) = 97 + 1 from rfl,
    calculateIRRGo_succ_conv _ _ _ _
      (by norm_num [jsAbs, derivLoop])
      (by norm_num [jsAbs, newtonNext, calculateNPV, npvLoop, derivLoop])]
  norm_num [newtonNext, calculateNPV, npvLoop, derivLoop]

/-- Counterexample to claim C2: on the cash-flow list `[210000000000]` with
initial investment `200000000000` the loop stops by convergence, yet the
NPV at the returned rate is `1250000000/236392871 ≈ 5.29`, far outside the
tolerance `0.0001`: convergence of the iterates does not make the returned
rate a root of the NPV function. -/
theorem calculateIRR_root_counterexample :
    (calculateIRRRun [(210000000000 : ℚ)] 200000000000).2 = true ∧
    ¬ jsAbs (calculateNPV [(210000000000 : ℚ)]
        (calculateIRR [(210000000000 : ℚ)] 200000000000) 200000000000) < 0.0001 := by
  constructor
  · rw [calculateIRRRun_concrete]
  · rw [calculateIRR, calculateIRRRun_concrete]
    norm_num [calculateNPV, npvLoop, jsAbs]

/-- Witness for claim C2 (amended) at the concrete convergent run above. -/
theorem calculateIRR_convergence_witness :
    ∃ r : ℚ, ¬ jsAbs (derivLoop r [(210000000000 : ℚ)] 0) < 1e-10 ∧
      jsAbs (newtonNext [(210000000000 : ℚ)] 200000000000 r - r) < 0.0001 ∧
      calculateIRR [(210000000000 : ℚ)] 200000000000 =
        max 0 (newtonNext [(210000000000 : ℚ)] 200000000000 r) :=
  calculateIRR_convergence [(210000000000 : ℚ)] 200000000000
    (by rw [calculateIRRRun_concrete])

/-- The loop of `calculatePaybackPeriod` (`app.js` lines 1269-1285):
`cumulativeCashFlow` starts at `-initialInvestment`; each year's cash flow
is added, and the first time the cumulative value reaches `0` the function
returns `i + |previousCumulative| / cashFlows[i]`. -/
def calculatePaybackGo : List ℚ → ℚ → Nat → Option ℚ
  | [], _, _ => none
  | c :: cs, cumulativeCashFlow, i =>
    let cumulative := cumulativeCashFlow + c
    if 0 ≤ cumulative then some ((i : ℚ) + jsAbs (cumulative - c) / c)
    else calculatePaybackGo cs cumulative (i + 1)

/-- `calculatePaybackPeriod` (`app.js` lines 1269-1285). -/
def calculatePaybackPeriod (cashFlows : List ℚ) (initialInvestment : ℚ) : Option ℚ :=
  calculatePaybackGo cashFlows (-initialInvestment) 0

/-- The cash flow used as the interpolation divisor by the loop of
`calculatePaybackPeriod`, when the loop returns: an observer of the same
recursion, extracted for the division-by-zero analysis. -/
def paybackDivisorGo : List ℚ → ℚ → Option ℚ
  | [], _ => none
  | c :: cs, cumulativeCashFlow =>
    if 0 ≤ cumulativeCashFlow + c then some c
    else paybackDivisorGo cs (cumulativeCashFlow + c)

/-- The divisor of the interpolation step of `calculatePaybackPeriod`. -/
def calculatePaybackDivisor (cashFlows : List ℚ) (initialInvestment : ℚ) : Option ℚ :=
  paybackDivisorGo cashFlows (-initialInvestment)

theorem calculatePaybackGo_none_iff (cs : List ℚ) : ∀ (cum : ℚ) (i : Nat),
    (calculatePaybackGo cs cum i = none ↔
      ∀ j, j < cs.length → cum + (cs.take (j + 1)).sum < 0) := by
  induction cs with
  | nil => intro cum i; simp [calculatePaybackGo]
  | cons c cs ih =>
    intro cum i
    rw [calculatePaybackGo]
    split_ifs with hc
    · simp only [Option.some_ne_none, false_iff, not_forall]
      refine ⟨0, by simp, ?_⟩
      simp only [List.take_succ_cons, List.take_zero, List.sum_cons, List.sum_nil, add_zero]
      linarith
    · rw [ih (cum + c) (i + 1)]
      constructor
      · intro h j hj
        cases j with
        | zero =>
          simp only [List.take_succ_cons, List.take_zero, List.sum_cons, List.sum_nil, add_zero]
          linarith [not_le.mp hc]
        | succ m =>
          have hm := h m (by simpa using hj)
          simp only [List.take_succ_cons, List.sum_cons] at hm ⊢
          linarith
      · intro h j hj
        have hm := h (j + 1) (by simpa using hj)
        simp only [List.take_succ_cons, List.sum_cons] at hm ⊢
        linarith

theorem calculatePaybackGo_some (cs : List ℚ) : ∀ (cum : ℚ) (i : Nat) (v : ℚ),
    calculatePaybackGo cs cum i = some v →
    ∃ k, k < cs.length ∧ 0 ≤ cum + (cs.take (k + 1)).sum ∧
      (∀ j, j < k → cum + (cs.take (j + 1)).sum < 0) ∧
      v = ((i : ℚ) + k) + jsAbs (cum + (cs.take k).sum) / cs.getD k 0 := by
  induction cs with
  | nil => intro cum i v hv; simp [calculatePaybackGo] at hv
  | cons c cs ih =>
    intro cum i v hv
    rw [calculatePaybackGo] at hv
    split_ifs at hv with hc
    · refine ⟨0, by simp, ?_, by simp, ?_⟩
      · simpa using hc
      · have hv' := Option.some_inj.mp hv
        simp only [List.take_zero, List.sum_nil, add_zero, List.getD_cons_zero,
          Nat.cast_zero] at hv' ⊢
        rw [← hv', add_sub_cancel_right]
    · obtain ⟨k, hk, h1, h2, h3⟩ := ih (cum + c) (i + 1) v hv
      refine ⟨k + 1, by simpa using hk, ?_, ?_, ?_⟩
      · simpa [List.take_succ_cons, List.sum_cons, add_assoc] using h1
      · intro j hj
        cases j with
        | zero =>
          simp only [List.take_succ_cons, List.take_zero, List.sum_cons, List.sum_nil, add_zero]
          linarith [not_le.mp hc]
        | succ m =>
          have hm := h2 m (by omega)
          simp only [List.take_succ_cons, List.sum_cons] at hm ⊢
          linarith
      · rw [h3]
        simp only [List.take_succ_cons, List.sum_cons, List.getD_cons_succ]
        push_cast
        ring_nf

/-- Claim C4: `calculatePaybackPeriod` returns `null` exactly when every
cumulative prefix sum of the cash flows stays strictly below the initial
investment; otherwise it returns `k + fraction` where `k` is the smallest
index at which the cumulative cash flow net of the investment reaches zero
or more and `fraction` is `|cumulative shortfall before year k| /
cashFlows[k]`. -/
theorem calculatePaybackPeriod_spec (cashFlows : List ℚ) (initialInvestment : ℚ) :
    (calculatePaybackPeriod cashFlows initialInvestment = none ↔
      ∀ i, i < cashFlows.length →
        (cashFlows.take (i + 1)).sum < initialInvestment) ∧
    ∀ v, calculatePaybackPeriod cashFlows initialInvestment = some v →
      ∃ k, k < cashFlows.length ∧
        initialInvestment ≤ (cashFlows.take (k + 1)).sum ∧
        (∀ j, j < k → (cashFlows.take (j + 1)).sum < initialInvestment) ∧
        v = (k : ℚ) +
          jsAbs ((cashFlows.take k).sum - initialInvestment) / cashFlows.getD k 0 := by
  constructor
  · rw [calculatePaybackPeriod, calculatePaybackGo_none_iff]
    constructor
    · intro h j hj
      have := h j hj
      linarith
    · intro h j hj
      have := h j hj
      linarith
  · intro v hv
    obtain ⟨k, hk, h1, h2, h3⟩ := calculatePaybackGo_some _ _ _ _ hv
    refine ⟨k, hk, by linarith, fun j hj => by have := h2 j hj; linarith, ?_⟩
    rw [h3, neg_add_eq_sub, Nat.cast_zero, zero_add]

/-- Witness for claim C4 on the cash flows `[50, 60]` against an investment
of `80`: payback `3/2`. -/
theorem calculatePaybackPeriod_spec_witness :
    ∃ k, k < List.length [(50 : ℚ), 60] ∧
      (80 : ℚ) ≤ ([(50 : ℚ), 60].take (k + 1)).sum ∧
      (∀ j, j < k → ([(50 : ℚ), 60].take (j + 1)).sum < 80) ∧
      (3 / 2 : ℚ) = (k : ℚ) +
        jsAbs (([(50 : ℚ), 60].take k).sum - 80) / [(50 : ℚ), 60].getD k 0 :=
  (calculatePaybackPeriod_spec [50, 60] 80).2 (3 / 2)
    (by norm_num [calculatePaybackPeriod, calculatePaybackGo, jsAbs])

/-- Counterexample to claim C9: with an initial investment of `0` and the cash
flows `[0]`, `calculatePaybackPeriod` returns a non-null value although the
interpolation divisor `cashFlows[0]` is `0`: the JavaScript code computes
`Math.abs(0) / 0 = NaN` there, so the returned value is not a well-defined
real number. -/
theorem calculatePayback_divzero_counterexample :
    (∃ v, calculatePaybackPeriod [(0 : ℚ)] 0 = some v) ∧
    calculatePaybackDivisor [(0 : ℚ)] 0 = some 0 :=
  ⟨⟨0 + jsAbs (0 + 0 - 0) / 0, by norm_num [calculatePaybackPeriod, calculatePaybackGo]⟩,
    by norm_num [calculatePaybackDivisor, paybackDivisorGo]⟩

theorem calculatePaybackGo_neg_inv (cs : List ℚ) : ∀ (cum : ℚ) (i : Nat), cum < 0 →
    ∀ v, calculatePaybackGo cs cum i = some v →
      (i : ℚ) ≤ v ∧ v ≤ (i : ℚ) + cs.length ∧
      ∃ c, paybackDivisorGo cs cum = some c ∧ 0 < c := by
  induction cs with
  | nil => intro cum i _ v hv; simp [calculatePaybackGo] at hv
  | cons c cs ih =>
    intro cum i hcum v hv
    rw [calculatePaybackGo] at hv
    rw [paybackDivisorGo]
    split_ifs at hv with hc
    · rw [if_pos hc]
      have hv' := Option.some_inj.mp hv
      have hcpos : 0 < c := by linarith
      have habs : jsAbs (cum + c - c) = -cum := by
        rw [add_sub_cancel_right, jsAbs, if_pos hcum]
      refine ⟨?_, ?_, c, rfl, hcpos⟩
      · rw [← hv', habs]
        have : 0 ≤ -cum / c := div_nonneg (by linarith) hcpos.le
        linarith
      · rw [← hv', habs]
        have h1 : -cum / c ≤ 1 := by
          rw [div_le_one hcpos]
          linarith
        have h2 : (0 : ℚ) ≤ (cs.length : ℚ) := Nat.cast_nonneg _
        simp only [List.length_cons]
        push_cast
        linarith
    · rw [if_neg hc]
      obtain ⟨h1, h2, h3⟩ := ih (cum + c) (i + 1) (by linarith [not_le.mp hc]) v hv
      push_cast at h1 h2
      refine ⟨by linarith, ?_, h3⟩
      simp only [List.length_cons]
      push_cast
      linarith

/-- Claim C9, amended: provided the initial investment is strictly
positive, every non-null value returned by `calculatePaybackPeriod` lies
between `0` and the length of the cash-flow list, and the interpolation
divisor is strictly positive, so the division is well defined; with a
non-positive initial investment the divisor can be zero. -/
theorem calculatePaybackPeriod_pos_safe (cashFlows : List ℚ) (initialInvestment : ℚ)
    (hI : 0 < initialInvestment) (v : ℚ)
    (hv : calculatePaybackPeriod cashFlows initialInvestment = some v) :
    0 ≤ v ∧ v ≤ (cashFlows.length : ℚ) ∧
    ∃ c, calculatePaybackDivisor cashFlows initialInvestment = some c ∧ 0 < c := by
  obtain ⟨h1, h2, h3⟩ :=
    calculatePaybackGo_neg_inv cashFlows (-initialInvestment) 0 (by linarith) v hv
  exact ⟨by simpa using h1, by simpa using h2, h3⟩

/-- Witness for claim C9 (amended) on the cash flows `[50, 60]` against an
investment of `80`. -/
theorem calculatePaybackPeriod_pos_safe_witness :
    (0 : ℚ) ≤ 3 / 2 ∧ (3 / 2 : ℚ) ≤ (List.length [(50 : ℚ), 60] : ℚ) ∧
    ∃ c, calculatePaybackDivisor [(50 : ℚ), 60] 80 = some c ∧ 0 < c :=
  calculatePaybackPeriod_pos_safe [50, 60] 80 (by norm_num) (3 / 2)
    (by norm_num [calculatePaybackPeriod, calculatePaybackGo, jsAbs])

/-- The cash-flow construction of `updateFinancialMetrics`
(`app.js` lines 1185-1196): compounding inflation applied to costs and
operating expenses, taxes floored at zero, depreciation added back. -/
def baseCashFlowsGo (inflationRate : ℚ) : List FinancialData → Nat → List ℚ
  | [], _ => []
  | fd :: rest, index =>
    (let inflatedCosts := fd.costs * (1 + inflationRate) ^ index
     let inflatedOpex := fd.operating_expenses * (1 + inflationRate) ^ index
     let adjustedNetIncome := fd.revenue - inflatedCosts - inflatedOpex -
       fd.depreciation - fd.interest
     let adjustedTaxes := max 0 (adjustedNetIncome * 0.25)
     adjustedNetIncome - adjustedTaxes + fd.depreciation) ::
      baseCashFlowsGo inflationRate rest (index + 1)

/-- The cash-flow list built by `updateFinancialMetrics`. -/
def baseCashFlows (data : List FinancialData) (inflationRate : ℚ) : List ℚ :=
  baseCashFlowsGo inflationRate data 0

/-- The stressed cash-flow construction of `runSensitivityAnalysis`
(`app.js` lines 1404-1415): the identical formula with each year's revenue
multiplied by `0.9`. -/
def stressedCashFlowsGo (inflationRate : ℚ) : List FinancialData → Nat → List ℚ
  | [], _ => []
  | fd :: rest, index =>
    (let stressedRevenue := fd.revenue * 0.9
     let inflatedCosts := fd.costs * (1 + inflationRate) ^ index
     let inflatedOpex := fd.operating_expenses * (1 + inflationRate) ^ index
     let adjustedNetIncome := stressedRevenue - inflatedCosts - inflatedOpex -
       fd.depreciation - fd.interest
     let adjustedTaxes := max 0 (adjustedNetIncome * 0.25)
     adjustedNetIncome - adjustedTaxes + fd.depreciation) ::
      stressedCashFlowsGo inflationRate rest (index + 1)

/-- The stressed cash-flow list built by `runSensitivityAnalysis`. -/
def stressedCashFlows (data : List FinancialData) (inflationRate : ℚ) : List ℚ :=
  stressedCashFlowsGo inflationRate data 0

theorem jsCashTerm_mono (a b : ℚ) (h : a ≤ b) :
    a - max 0 (a * 0.25) ≤ b - max 0 (b * 0.25) := by
  rcases le_total (a * 0.25) 0 with ha | ha <;> rcases le_total (b * 0.25) 0 with hb | hb
  · rw [max_eq_left ha, max_eq_left hb]
    linarith
  · rw [max_eq_left ha, max_eq_right hb]
    linarith
  · rw [max_eq_right ha, max_eq_left hb]
    linarith
  · rw [max_eq_right ha, max_eq_right hb]
    linarith

theorem stressed_le_base (inflationRate : ℚ) : ∀ (data : List FinancialData) (index : Nat),
    (∀ fd ∈ data, 0 ≤ fd.revenue) →
    List.Forall₂ (· ≤ ·) (stressedCashFlowsGo inflationRate data index)
      (baseCashFlowsGo inflationRate data index) := by
  intro data
  induction data with
  | nil => intro index _; simp [stressedCashFlowsGo, baseCashFlowsGo]
  | cons fd rest ih =>
    intro index h
    rw [stressedCashFlowsGo, baseCashFlowsGo]
    refine List.Forall₂.cons ?_ (ih (index + 1) (fun x hx => h x (List.mem_cons_of_mem _ hx)))
    have hrev : 0 ≤ fd.revenue := h fd (List.mem_cons_self _ _)
    have hr9 : fd.revenue * 0.9 ≤ fd.revenue := by linarith
    have hmono := jsCashTerm_mono
      (fd.revenue * 0.9 - fd.costs * (1 + inflationRate) ^ index -
        fd.operating_expenses * (1 + inflationRate) ^ index - fd.depreciation - fd.interest)
      (fd.revenue - fd.costs * (1 + inflationRate) ^ index -
        fd.operating_expenses * (1 + inflationRate) ^ index - fd.depreciation - fd.interest)
      (by linarith)
    dsimp only
    linarith

theorem npvLoop_le_of_forall2 (discountRate : ℚ) (hr : 0 < 1 + discountRate)
    {l1 l2 : List ℚ} (hf : List.Forall₂ (· ≤ ·) l1 l2) :
    ∀ i : Nat, npvLoop discountRate l1 i ≤ npvLoop discountRate l2 i := by
  induction hf with
  | nil => intro i; simp [npvLoop]
  | cons hab htail ih =>
    intro i
    rw [npvLoop, npvLoop]
    exact add_le_add ((div_le_div_right (pow_pos hr _)).mpr hab) (ih (i + 1))

/-- Claim C5: for revenue-nonnegative data and a hurdle rate above `-100%`,
the stressed NPV of the sensitivity analysis (revenue scaled by `0.9`,
identical inflation-compounded cash-flow formula) never exceeds the base
NPV of `updateFinancialMetrics` at the same settings. -/
theorem sensitivity_npv_le (data : List FinancialData)
    (inflationRate hurdleRate initialInvestment : ℚ)
    (hrev : ∀ fd ∈ data, 0 ≤ fd.revenue)
    (hh : -1 < hurdleRate) (hi : -1 < inflationRate) :
    calculateNPV (stressedCashFlows data inflationRate) hurdleRate initialInvestment ≤
      calculateNPV (baseCashFlows data inflationRate) hurdleRate initialInvestment := by
  unfold calculateNPV stressedCashFlows baseCashFlows
  have h1 : (0 : ℚ) < 1 + hurdleRate := by linarith
  have h2 := stressed_le_base inflationRate data 0 hrev
  have h3 := npvLoop_le_of_forall2 hurdleRate h1 h2 0
  linarith

/-- Witness for claim C5 at a concrete one-year projection. -/
theorem sensitivity_npv_le_witness :
    calculateNPV (stressedCashFlows [sampleRow] 0.03) (1 / 10) 100 ≤
      calculateNPV (baseCashFlows [sampleRow] 0.03) (1 / 10) 100 :=
  sensitivity_npv_le [sampleRow] 0.03 (1 / 10) 100
    (by
      intro fd hfd
      simp only [List.mem_singleton] at hfd
      subst hfd
      norm_num [sampleRow])
    (by norm_num) (by norm_num)

/-- The ROFE (return on funds employed) computation of
`updateFinancialMetrics` (`app.js` lines 1210-1214). -/
def computeROFE (data : List FinancialData) (initialInvestment : ℚ) : ℚ :=
  let totalNetIncome := data.foldl (fun sum fd => sum + fd.net_income) 0
  let averageNetIncome := totalNetIncome / (data.length : ℚ)
  if 0 < initialInvestment then (averageNetIncome / initialInvestment) * 100 else 0

theorem foldl_add_net_income (data : List FinancialData) : ∀ a : ℚ,
    data.foldl (fun sum fd => sum + fd.net_income) a =
      a + (data.map (fun fd => fd.net_income)).sum := by
  induction data with
  | nil => intro a; simp
  | cons fd rest ih =>
    intro a
    rw [List.foldl_cons, ih (a + fd.net_income), List.map_cons, List.sum_cons]
    ring

/-- Claim C6: for a non-empty series, `updateFinancialMetrics` sets ROFE to
`100 * (average net_income) / initialInvestment` when the initial
investment is strictly positive, and to exactly `0` otherwise: the
division by the initial investment is guarded by `initialInvestment > 0`. -/
theorem computeROFE_spec (data : List FinancialData) (initialInvestment : ℚ)
    (hne : data ≠ []) :
    (0 < initialInvestment →
      computeROFE data initialInvestment =
        100 * ((data.map (fun fd => fd.net_income)).sum / (data.length : ℚ)) /
          initialInvestment) ∧
    (initialInvestment ≤ 0 → computeROFE data initialInvestment = 0) := by
  constructor
  · intro h
    rw [computeROFE]
    simp only [foldl_add_net_income, zero_add]
    rw [if_pos h]
    ring
  · intro h
    rw [computeROFE]
    exact if_neg (not_lt.mpr h)

/-- Witness for claim C6 at a concrete one-row series. -/
theorem computeROFE_spec_witness :
    (0 < (50 : ℚ) →
      computeROFE [sampleRow] 50 =
        100 * (([sampleRow].map (fun fd => fd.net_income)).sum /
          (List.length [sampleRow] : ℚ)) / 50) ∧
    ((50 : ℚ) ≤ 0 → computeROFE [sampleRow] 50 = 0) :=
  computeROFE_spec [sampleRow] 50 (by simp)

/-- The strategy fields inspected by `runCommercialAgentCheck`
(`state.businessCase.strategy` in `app.js`); a missing/empty text field is
the falsy case of the JavaScript check. -/
structure Strategy where
  problem_statement : String
  investment_type : String
  strategic_pillar : String
  stakeholders : String
  signoff : Bool
deriving DecidableEq

/-- The metrics of `state.financialMetrics` read by
`runCommercialAgentCheck`. -/
structure FinancialMetrics where
  npv : ℚ
  irr : ℚ
  hurdleRate : ℚ
deriving DecidableEq

/-- The banner levels of `showBanner` (`app.js` lines 984-1005). -/
inductive BannerType
  | info
  | warning
  | error
  | success
deriving DecidableEq

/-- The six rules of `runCommercialAgentCheck` (`app.js` lines 932-981),
identified by rule rather than by their message text, which is abstracted
away in this embedding. -/
inductive IssueKind
  | missingStrategy
  | negativeNpv
  | irrBelowHurdle
  | costsExceedRevenue
  | signoffPending
  | missingFinancialData
deriving DecidableEq

/-- `totalRevenue` of `runCommercialAgentCheck` (`app.js` line 952):
`reduce((sum, fd) => sum + fd.revenue, 0)`. -/
def totalRevenue (data : List FinancialData) : ℚ :=
  data.foldl (fun sum fd => sum + fd.revenue) 0

/-- `totalCosts` of `runCommercialAgentCheck` (`app.js` line 953):
`reduce((sum, fd) => sum + fd.costs + fd.operating_expenses, 0)`. -/
def totalCosts (data : List FinancialData) : ℚ :=
  data.foldl (fun sum fd => sum + fd.costs + fd.operating_expenses) 0

/-- The `issues` array built by `runCommercialAgentCheck`
(`app.js` lines 933-967), in push order. -/
def commercialIssues (strategy : Strategy) (metrics : FinancialMetrics)
    (financial_data : List FinancialData) : List (BannerType × IssueKind) :=
  (if strategy.problem_statement = "" ∨ strategy.investment_type = "" ∨
      strategy.strategic_pillar = "" ∨ strategy.stakeholders = "" then
    [(BannerType.info, IssueKind.missingStrategy)] else []) ++
  (if metrics.npv < 0 then [(BannerType.error, IssueKind.negativeNpv)] else []) ++
  (if 0 < metrics.irr ∧ metrics.irr < metrics.hurdleRate then
    [(BannerType.warning, IssueKind.irrBelowHurdle)] else []) ++
  (if totalRevenue financial_data < totalCosts financial_data then
    [(BannerType.error, IssueKind.costsExceedRevenue)] else []) ++
  (if strategy.signoff = false ∧ 0 < totalRevenue financial_data then
    [(BannerType.warning, IssueKind.signoffPending)] else []) ++
  (if financial_data.length = 0 then
    [(BannerType.info, IssueKind.missingFinancialData)] else [])

/-- `runCommercialAgentCheck` (`app.js` lines 932-981): if any issue was
pushed, show the first error-level issue, else the first warning-level
issue, else the first info-level issue; with no issue show the success
banner.  The `none` fallback of the `match` is unreachable, because every
pushed issue carries one of the three searched levels. -/
def runCommercialAgentCheck (strategy : Strategy) (metrics : FinancialMetrics)
    (financial_data : List FinancialData) : BannerType × Option IssueKind :=
  let issues := commercialIssues strategy metrics financial_data
  match (issues.find? (fun i => decide (i.1 = BannerType.error))).orElse
      (fun _ => (issues.find? (fun i => decide (i.1 = BannerType.warning))).orElse
        (fun _ => issues.find? (fun i => decide (i.1 = BannerType.info)))) with
  | some issue => (issue.1, some issue.2)
  | none => (BannerType.success, none)

theorem totalRevenue_eq_sum (d : List FinancialData) :
    totalRevenue d = (d.map (fun fd => fd.revenue)).sum := by
  rw [totalRevenue]
  suffices h : ∀ a : ℚ, d.foldl (fun sum fd => sum + fd.revenue) a =
      a + (d.map (fun fd => fd.revenue)).sum by
    rw [h 0, zero_add]
  induction d with
  | nil => intro a; simp
  | cons fd rest ih =>
    intro a
    rw [List.foldl_cons, ih, List.map_cons, List.sum_cons]
    ring

theorem totalCosts_eq_sum (d : List FinancialData) :
    totalCosts d = (d.map (fun fd => fd.costs + fd.operating_expenses)).sum := by
  rw [totalCosts]
  suffices h : ∀ a : ℚ, d.foldl (fun sum fd => sum + fd.costs + fd.operating_expenses) a =
      a + (d.map (fun fd => fd.costs + fd.operating_expenses)).sum by
    rw [h 0, zero_add]
  induction d with
  | nil => intro a; simp
  | cons fd rest ih =>
    intro a
    rw [List.foldl_cons, ih, List.map_cons, List.sum_cons]
    ring

/-- Claim C7: the banner of `runCommercialAgentCheck` is the success banner
exactly when none of the six rules fires; otherwise its level is `error`
if some error-level rule fires, else `warning` if some warning-level rule
fires, else `info`; and the `costsExceedRevenue` error-level rule fires
exactly when the total of `costs + operating_expenses` over all years
strictly exceeds the total revenue. -/
theorem runCommercialAgentCheck_spec (s : Strategy) (m : FinancialMetrics)
    (d : List FinancialData) :
    ((runCommercialAgentCheck s m d).1 = BannerType.success ↔
      ¬(s.problem_statement = "" ∨ s.investment_type = "" ∨
        s.strategic_pillar = "" ∨ s.stakeholders = "") ∧
      ¬ m.npv < 0 ∧
      ¬(0 < m.irr ∧ m.irr < m.hurdleRate) ∧
      ¬ totalRevenue d < totalCosts d ∧
      ¬(s.signoff = false ∧ 0 < totalRevenue d) ∧
      ¬ d.length = 0) ∧
    ((m.npv < 0 ∨ totalRevenue d < totalCosts d) →
      (runCommercialAgentCheck s m d).1 = BannerType.error) ∧
    (¬(m.npv < 0 ∨ totalRevenue d < totalCosts d) →
      ((0 < m.irr ∧ m.irr < m.hurdleRate) ∨ (s.signoff = false ∧ 0 < totalRevenue d)) →
      (runCommercialAgentCheck s m d).1 = BannerType.warning) ∧
    (¬(m.npv < 0 ∨ totalRevenue d < totalCosts d) →
      ¬((0 < m.irr ∧ m.irr < m.hurdleRate) ∨ (s.signoff = false ∧ 0 < totalRevenue d)) →
      ((s.problem_statement = "" ∨ s.investment_type = "" ∨
        s.strategic_pillar = "" ∨ s.stakeholders = "") ∨ d.length = 0) →
      (runCommercialAgentCheck s m d).1 = BannerType.info) ∧
    ((BannerType.error, IssueKind.costsExceedRevenue) ∈ commercialIssues s m d ↔
      ((d.map (fun fd => fd.revenue)).sum <
        (d.map (fun fd => fd.costs + fd.operating_expenses)).sum)) := by
  rw [← totalRevenue_eq_sum d, ← totalCosts_eq_sum d]
  by_cases hA : (s.problem_statement = "" ∨ s.investment_type = "" ∨
      s.strategic_pillar = "" ∨ s.stakeholders = "") <;>
  by_cases hB : m.npv < 0 <;>
  by_cases hC : (0 < m.irr ∧ m.irr < m.hurdleRate) <;>
  by_cases hD : totalRevenue d < totalCosts d <;>
  by_cases hE : (s.signoff = false ∧ 0 < totalRevenue d) <;>
  by_cases hF : d.length = 0 <;>
  simp [runCommercialAgentCheck, commercialIssues, hA, hB, hC, hD, hE, hF]

/-- A complete strategy block for concrete witnesses. -/
def sampleStrategy : Strategy :=
  { problem_statement := "Margins are eroding"
    investment_type := "Growth"
    strategic_pillar := "Efficiency"
    stakeholders := "Finance"
    signoff := true }

/-- Metrics with a negative NPV for concrete witnesses. -/
def sampleMetrics : FinancialMetrics :=
  { npv := -5
    irr := 0
    hurdleRate := 10 }

/-- Witness for claim C7: with a negative NPV the banner is error-level. -/
theorem runCommercialAgentCheck_spec_witness :
    (runCommercialAgentCheck sampleStrategy sampleMetrics [sampleRow]).1 =
      BannerType.error :=
  (runCommercialAgentCheck_spec sampleStrategy sampleMetrics [sampleRow]).2.1
    (Or.inl (by norm_num [sampleMetrics]))

/-- The slide kinds of `SlideData.type` (`frontend/src/types/index.ts`). -/
inductive SlideType
  | title
  | content
  | chart
deriving DecidableEq

/-- The chart kinds of `SlideData.chartType`
(`frontend/src/types/index.ts`). -/
inductive ChartKind
  | bar
  | line
  | pie
  | column
deriving DecidableEq

/-- `ChartDataset` (`frontend/src/types/index.ts`); `generateSlides` always
supplies single-string colors and a numeric border width. -/
structure ChartDataset where
  label : String
  data : List ℚ
  backgroundColor : String
  borderColor : String
  borderWidth : ℚ
deriving DecidableEq

/-- `ChartData` (`frontend/src/types/index.ts`). -/
structure ChartData where
  labels : List String
  datasets : List ChartDataset
deriving DecidableEq

/-- `SlideData` (`frontend/src/types/index.ts`); the optional fields
default to `none` as the TypeScript optional properties default to
`undefined`. -/
structure SlideData where
  id : Nat
  title : String
  type : SlideType
  content : Option String := none
  chartType : Option ChartKind := none
  chartData : Option ChartData := none
deriving DecidableEq

instance : Inhabited SlideData := ⟨{ id := 0, title := "", type := SlideType.content }⟩

/-- `BusinessCaseData` (`frontend/src/types/index.ts`); the
`Record<string, string | number>` of assumptions is modelled as an ordered
key-value list with stringified values. -/
structure BusinessCaseData where
  project_name : String
  description : Option String
  financial_data : List FinancialData
  assumptions : List (String × String)
deriving DecidableEq

/-- The level of an `AuditFinding` (`frontend/src/types/index.ts`). -/
inductive FindingLevel
  | error
  | warning
  | info
deriving DecidableEq

/-- The severity of an `AuditFinding` (`frontend/src/types/index.ts`). -/
inductive FindingSeverity
  | high
  | medium
  | low
deriving DecidableEq

/-- `AuditFinding` (`frontend/src/types/index.ts`). -/
structure AuditFinding where
  type : FindingLevel
  year : Int
  field : String
  message : String
  severity : FindingSeverity
deriving DecidableEq

/-- `AuditResponse` (`frontend/src/types/index.ts`). -/
structure AuditResponse where
  status : String
  findings : List AuditFinding
  suggestions : List String
  risk_score : ℚ
deriving DecidableEq

/-- `generateSlides` (`businessCaseStore.ts` lines 55-190), transcribed
slide by slide.  The only simplification is textual: the `toLocaleString`
digit grouping of slide 11 is rendered as a plain decimal string. -/
def generateSlides (businessCase : BusinessCaseData) : List SlideData :=
  let years := businessCase.financial_data.map (fun fd => toString fd.year)
  [{ id := 1
     title := businessCase.project_name
     type := SlideType.title
     content := businessCase.description },
   { id := 2
     title := "Executive Summary"
     type := SlideType.content
     content := some ("• Project overview and objectives\n• Key financial highlights\n• Strategic alignment") },
   { id := 3
     title := "Revenue Projection"
     type := SlideType.chart
     chartType := some ChartKind.bar
     chartData := some
       { labels := years
         datasets := [{ label := "Revenue"
                        data := businessCase.financial_data.map (fun fd => fd.revenue)
                        backgroundColor := "rgba(54, 162, 235, 0.6)"
                        borderColor := "rgba(54, 162, 235, 1)"
                        borderWidth := 1 }] } },
   { id := 4
     title := "Cost Analysis"
     type := SlideType.chart
     chartType := some ChartKind.bar
     chartData := some
       { labels := years
         datasets := [{ label := "Direct Costs"
                        data := businessCase.financial_data.map (fun fd => fd.costs)
                        backgroundColor := "rgba(255, 99, 132, 0.6)"
                        borderColor := "rgba(255, 99, 132, 1)"
                        borderWidth := 1 },
                      { label := "Operating Expenses"
                        data := businessCase.financial_data.map
                          (fun fd => fd.operating_expenses)
                        backgroundColor := "rgba(255, 159, 64, 0.6)"
                        borderColor := "rgba(255, 159, 64, 1)"
                        borderWidth := 1 }] } },
   { id := 5
     title := "Profitability Analysis"
     type := SlideType.chart
     chartType := some ChartKind.line
     chartData := some
       { labels := years
         datasets := [{ label := "Gross Profit"
                        data := businessCase.financial_data.map (fun fd => fd.gross_profit)
                        backgroundColor := "rgba(75, 192, 192, 0.6)"
                        borderColor := "rgba(75, 192, 192, 1)"
                        borderWidth := 2 },
                      { label := "EBITDA"
                        data := businessCase.financial_data.map (fun fd => fd.ebitda)
                        backgroundColor := "rgba(153, 102, 255, 0.6)"
                        borderColor := "rgba(153, 102, 255, 1)"
                        borderWidth := 2 }] } },
   { id := 6
     title := "Net Income Projection"
     type := SlideType.chart
     chartType := some ChartKind.bar
     chartData := some
       { labels := years
         datasets := [{ label := "Net Income"
                        data := businessCase.financial_data.map (fun fd => fd.net_income)
                        backgroundColor := "rgba(46, 204, 113, 0.6)"
                        borderColor := "rgba(46, 204, 113, 1)"
                        borderWidth := 1 }] } },
   { id := 7
     title := "Key Assumptions"
     type := SlideType.content
     content := some (String.intercalate ("\n")
       (businessCase.assumptions.map (fun kv => "• " ++ kv.1 ++ ": " ++ kv.2))) },
   { id := 8
     title := "Risk Analysis"
     type := SlideType.content
     content := some ("• Market risks\n• Operational risks\n• Financial risks\n• Mitigation strategies") },
   { id := 9
     title := "Implementation Timeline"
     type := SlideType.content
     content := some ("• Phase 1: Planning and Setup\n• Phase 2: Implementation\n• Phase 3: Optimization\n• Phase 4: Scale") },
   { id := 10
     title := "Resource Requirements"
     type := SlideType.content
     content := some ("• Personnel needs\n• Technology infrastructure\n• Capital requirements\n• Training needs") },
   { id := 11
     title := "Financial Summary"
     type := SlideType.content
     content := some ("• Total Revenue (5-year): $" ++
       toString (businessCase.financial_data.foldl (fun sum fd => sum + fd.revenue) 0) ++
       "\n• Total Net Income: $" ++
       toString (businessCase.financial_data.foldl (fun sum fd => sum + fd.net_income) 0) ++
       "\n• ROI Analysis") },
   { id := 12
     title := "Conclusion & Recommendations"
     type := SlideType.content
     content := some ("• Strategic alignment confirmed\n• Financial viability established\n• Recommended next steps") }]

/-- `defaultFinancialData` (`businessCaseStore.ts` lines 34-40). -/
def defaultFinancialData : List FinancialData :=
  [{ year := 2024
     revenue := 1000000
     costs := 600000
     gross_profit := 400000
     operating_expenses := 200000
     ebitda := 200000
     depreciation := 50000
     ebit := 150000
     interest := 20000
     taxes := 32500
     net_income := 97500 },
   { year := 2025
     revenue := 1200000
     costs := 700000
     gross_profit := 500000
     operating_expenses := 230000
     ebitda := 270000
     depreciation := 55000
     ebit := 215000
     interest := 18000
     taxes := 49250
     net_income := 147750 },
   { year := 2026
     revenue := 1500000
     costs := 850000
     gross_profit := 650000
     operating_expenses := 280000
     ebitda := 370000
     depreciation := 60000
     ebit := 310000
     interest := 15000
     taxes := 73750
     net_income := 221250 },
   { year := 2027
     revenue := 1800000
     costs := 1000000
     gross_profit := 800000
     operating_expenses := 320000
     ebitda := 480000
     depreciation := 65000
     ebit := 415000
     interest := 12000
     taxes := 100750
     net_income := 302250 },
   { year := 2028
     revenue := 2200000
     costs := 1200000
     gross_profit := 1000000
     operating_expenses := 380000
     ebitda := 620000
     depreciation := 70000
     ebit := 550000
     interest := 10000
     taxes := 135000
     net_income := 405000 }]

/-- `defaultBusinessCase` (`businessCaseStore.ts` lines 42-52). -/
def defaultBusinessCase : BusinessCaseData :=
  { project_name := "New Business Initiative"
    description := some ("Business Case Analysis for Strategic Growth")
    financial_data := defaultFinancialData
    assumptions := [("Revenue Growth Rate", "20%"),
                    ("Cost Escalation", "15%"),
                    ("Tax Rate", "25%"),
                    ("Discount Rate", "10%")] }

/-- A `Partial<FinancialData>` payload of `updateSingleRow`: every field
optional, absent fields keeping the previous value. -/
structure FinancialDataPatch where
  year : Option Int := none
  revenue : Option ℚ := none
  costs : Option ℚ := none
  gross_profit : Option ℚ := none
  operating_expenses : Option ℚ := none
  ebitda : Option ℚ := none
  depreciation : Option ℚ := none
  ebit : Option ℚ := none
  interest : Option ℚ := none
  taxes : Option ℚ := none
  net_income : Option ℚ := none

/-- The object spread `{ ...financialData[index], ...data }` of
`updateSingleRow`. -/
def applyPatch (fd : FinancialData) (p : FinancialDataPatch) : FinancialData :=
  { year := p.year.getD fd.year
    revenue := p.revenue.getD fd.revenue
    costs := p.costs.getD fd.costs
    gross_profit := p.gross_profit.getD fd.gross_profit
    operating_expenses := p.operating_expenses.getD fd.operating_expenses
    ebitda := p.ebitda.getD fd.ebitda
    depreciation := p.depreciation.getD fd.depreciation
    ebit := p.ebit.getD fd.ebit
    interest := p.interest.getD fd.interest
    taxes := p.taxes.getD fd.taxes
    net_income := p.net_income.getD fd.net_income }

/-- The state of `useBusinessCaseStore`
(`businessCaseStore.ts` lines 4-17). -/
structure StoreState where
  businessCase : BusinessCaseData
  auditResults : Option AuditResponse
  slides : List SlideData
  isLoading : Bool
  isAuditing : Bool
  isExporting : Bool

/-- The actions of `useBusinessCaseStore`
(`businessCaseStore.ts` lines 19-30). -/
inductive StoreAction
  | setBusinessCase (data : BusinessCaseData)
  | updateFinancialData (data : List FinancialData)
  | updateSingleRow (index : Nat) (data : FinancialDataPatch)
  | setProjectName (name : String)
  | setDescription (description : String)
  | setAssumptions (assumptions : List (String × String))
  | setAuditResults (results : Option AuditResponse)
  | setLoading (loading : Bool)
  | setAuditing (auditing : Bool)
  | setExporting (exporting : Bool)
  | resetBusinessCase

/-- The initial store state (`businessCaseStore.ts` lines 193-198). -/
def initialStoreState : StoreState :=
  { businessCase := defaultBusinessCase
    auditResults := none
    slides := generateSlides defaultBusinessCase
    isLoading := false
    isAuditing := false
    isExporting := false }

/-- The action handlers of `useBusinessCaseStore`
(`businessCaseStore.ts` lines 200-257).  In `updateSingleRow` an
out-of-range index leaves the list unchanged (`List.set` is a no-op there,
where the JavaScript assignment would extend the array). -/
def dispatch (s : StoreState) : StoreAction → StoreState
  | .setBusinessCase data =>
    { s with
      businessCase := data
      slides := generateSlides data }
  | .updateFinancialData data =>
    let newBusinessCase := { s.businessCase with financial_data := data }
    { s with
      businessCase := newBusinessCase
      slides := generateSlides newBusinessCase }
  | .updateSingleRow index data =>
    let financialData := s.businessCase.financial_data
    let financialData :=
      financialData.set index (applyPatch (financialData.getD index default) data)
    let newBusinessCase := { s.businessCase with financial_data := financialData }
    { s with
      businessCase := newBusinessCase
      slides := generateSlides newBusinessCase }
  | .setProjectName name =>
    let newBusinessCase := { s.businessCase with project_name := name }
    { s with
      businessCase := newBusinessCase
      slides := generateSlides newBusinessCase }
  | .setDescription description =>
    let newBusinessCase := { s.businessCase with description := some description }
    { s with
      businessCase := newBusinessCase
      slides := generateSlides newBusinessCase }
  | .setAssumptions assumptions =>
    let newBusinessCase := { s.businessCase with assumptions := assumptions }
    { s with
      businessCase := newBusinessCase
      slides := generateSlides newBusinessCase }
  | .setAuditResults results => { s with auditResults := results }
  | .setLoading loading => { s with isLoading := loading }
  | .setAuditing auditing => { s with isAuditing := auditing }
  | .setExporting exporting => { s with isExporting := exporting }
  | .resetBusinessCase =>
    { s with
      businessCase := defaultBusinessCase
      slides := generateSlides defaultBusinessCase
      auditResults := none }

/-- Claim C8: the store invariant `slides = generateSlides businessCase`
holds initially and is preserved by every action; `generateSlides` always
produces exactly 12 slides, slide 1's title is the current `project_name`,
and the chart slides' data arrays are the current per-year `revenue`,
`costs`, `operating_expenses`, `gross_profit`, `ebitda` and `net_income`
series of `financial_data`. -/
theorem store_slides_invariant :
    (initialStoreState.slides = generateSlides initialStoreState.businessCase) ∧
    (∀ (s : StoreState) (a : StoreAction),
      s.slides = generateSlides s.businessCase →
      (dispatch s a).slides = generateSlides (dispatch s a).businessCase) ∧
    (∀ bc : BusinessCaseData, (generateSlides bc).length = 12) ∧
    (∀ bc : BusinessCaseData,
      ((generateSlides bc).getD 0 default).title = bc.project_name) ∧
    (∀ bc : BusinessCaseData,
      (((generateSlides bc).getD 2 default).chartData.map
          (fun cd => cd.datasets.map (fun ds => ds.data))) =
        some [bc.financial_data.map (fun fd => fd.revenue)]) ∧
    (∀ bc : BusinessCaseData,
      (((generateSlides bc).getD 3 default).chartData.map
          (fun cd => cd.datasets.map (fun ds => ds.data))) =
        some [bc.financial_data.map (fun fd => fd.costs),
              bc.financial_data.map (fun fd => fd.operating_expenses)]) ∧
    (∀ bc : BusinessCaseData,
      (((generateSlides bc).getD 4 default).chartData.map
          (fun cd => cd.datasets.map (fun ds => ds.data))) =
        some [bc.financial_data.map (fun fd => fd.gross_profit),
              bc.financial_data.map (fun fd => fd.ebitda)]) ∧
    (∀ bc : BusinessCaseData,
      (((generateSlides bc).getD 5 default).chartData.map
          (fun cd => cd.datasets.map (fun ds => ds.data))) =
        some [bc.financial_data.map (fun fd => fd.net_income)]) := by
  refine ⟨rfl, ?_, fun bc => rfl, fun bc => rfl, fun bc => rfl, fun bc => rfl,
    fun bc => rfl, fun bc => rfl⟩
  intro s a h
  cases a <;> simp [dispatch, h]

/-- Witness for claim C8: preservation at a concrete action on the initial
state. -/
theorem store_slides_invariant_witness :
    (dispatch initialStoreState (StoreAction.setProjectName ("Expansion"))).slides =
      generateSlides
        (dispatch initialStoreState (StoreAction.setProjectName ("Expansion"))).businessCase :=
  store_slides_invariant.2.1 initialStoreState (StoreAction.setProjectName ("Expansion"))
    store_slides_invariant.1

end BusinessCasePlatform
